import Mathlib

/-!
Verification of the esb_go_app messaging engine against its specification.

The definitions below are a shallow embedding of the Go source:
pure fragments become Lean functions; effectful calls (broker operations,
database lookups, HTTP, JSON parsing of raw bytes) are passed in as
explicit oracle inputs describing the outcome the external system produced,
and the code's branching on those outcomes is translated verbatim.
Go maps (`map[string]interface{}`) are embedded as association lists.
-/

namespace EsbApp

/-! ## Tree-shaped values marshalled between host and script engines -/

/-- Go-side dynamic value (`interface{}`) as produced by JSON unmarshalling
and by the engine-to-Go conversions in the scripting package. Float values
do not occur in any verified claim and are omitted from the embedding. -/
inductive GoValue where
  | vnull : GoValue
  | vbool (b : Bool) : GoValue
  | vint (n : Int) : GoValue
  | vstr (s : String) : GoValue
  | vmap (entries : List (String × GoValue)) : GoValue
  | vlist (xs : List GoValue) : GoValue

/-- A Go `map[string]interface{}` embedded as an association list. -/
abbrev GoMap := List (String × GoValue)

/-- Output of a transformation or collector script
(`scripting.TransformedMessage`). The `destination` field of the Go struct
is unused by the verified code paths and omitted. -/
structure TransformedMessage where
  body : GoMap
  headers : GoMap

/-! ## AMQP deliveries and publishings -/

/-- AMQP delivery mode constant `amqp091.Transient`. -/
def amqpTransient : Nat := 1

/-- AMQP delivery mode constant `amqp091.Persistent`. -/
def amqpPersistent : Nat := 2

/-- The fields of `amqp091.Delivery` read by the engine. -/
structure Delivery where
  headers : GoMap
  contentType : String
  contentEncoding : String
  deliveryMode : Nat
  priority : Nat
  correlationId : String
  replyTo : String
  expiration : String
  messageId : String
  timestamp : Nat
  msgType : String
  userId : String
  appId : String
  body : String

/-- The fields of `amqp091.Publishing` set by the engine. -/
structure Publishing where
  headers : GoMap
  contentType : String
  contentEncoding : String
  deliveryMode : Nat
  priority : Nat
  correlationId : String
  replyTo : String
  expiration : String
  messageId : String
  timestamp : Nat
  msgType : String
  userId : String
  appId : String
  body : String

/-- Embedding of `republishAsDurable` (rabbitmq/publisher.go): the
`amqp091.Publishing` it hands to `ch.Publish`, copying every property of
the source delivery and forcing `DeliveryMode = amqp091.Persistent`. -/
def republishAsDurable (msg : Delivery) : Publishing :=
  { headers := msg.headers
    contentType := msg.contentType
    contentEncoding := msg.contentEncoding
    deliveryMode := amqpPersistent
    priority := msg.priority
    correlationId := msg.correlationId
    replyTo := msg.replyTo
    expiration := msg.expiration
    messageId := msg.messageId
    timestamp := msg.timestamp
    msgType := msg.msgType
    userId := msg.userId
    appId := msg.appId
    body := msg.body }

/-- Embedding of the `amqp091.Publishing` built by `forwardOneMessage`
(rabbitmq/rabbitmq.go): property-preserving forward with
`DeliveryMode = amqp091.Transient`. -/
def forwardPublishing (msg : Delivery) : Publishing :=
  { headers := msg.headers
    contentType := msg.contentType
    contentEncoding := msg.contentEncoding
    deliveryMode := amqpTransient
    priority := msg.priority
    correlationId := msg.correlationId
    replyTo := msg.replyTo
    expiration := msg.expiration
    messageId := msg.messageId
    timestamp := msg.timestamp
    msgType := msg.msgType
    userId := msg.userId
    appId := msg.appId
    body := msg.body }

/-! ## Inbound forwarder: forwardOneMessage -/

/-- Outcomes of the broker operations performed by one call of
`forwardOneMessage`, supplied as oracle inputs. -/
structure ForwardEnv where
  /-- result of `r.conn.Channel()` -/
  chanOpen : Except String Unit
  /-- result of `ch.QueueDeclarePassive(destQueue, ...)` -/
  destQueueDeclare : Except String Unit
  /-- result of `ch.Get(sourceQueue, false)`: error, or the optional message -/
  getMsg : Except String (Option Delivery)
  /-- whether `ch.Publish` to the destination queue succeeds -/
  publishOk : Bool

/-- Broker-visible effects of one call of `forwardOneMessage`. -/
structure ForwardResult where
  acked : Bool
  /-- `some requeue` when the delivery was nacked with that requeue flag -/
  nacked : Option Bool
  /-- published content, keyed by routing key (the destination queue) -/
  published : Option (String × Publishing)
  err : Option String

/-- Embedding of `forwardOneMessage` (rabbitmq/rabbitmq.go, lines 114-161):
passive-declare the destination, one-shot get with `autoAck=false`,
transient property-preserving publish, then ack on success and
nack with `requeue=true` on publish failure. -/
def forwardOneMessage (env : ForwardEnv) (destQueue : String) : ForwardResult :=
  match env.chanOpen with
  | Except.error e =>
      { acked := false, nacked := none, published := none
        err := some ("could not open channel: " ++ e) }
  | Except.ok _ =>
    match env.destQueueDeclare with
    | Except.error _ =>
        { acked := false, nacked := none, published := none
          err := some ("destination queue '" ++ destQueue ++ "' does not exist yet") }
    | Except.ok _ =>
      match env.getMsg with
      | Except.error e =>
          { acked := false, nacked := none, published := none
            err := some ("failed to get message: " ++ e) }
      | Except.ok none =>
          { acked := false, nacked := none, published := none
            err := some "no message in queue" }
      | Except.ok (some msg) =>
        if env.publishOk then
          { acked := true, nacked := none
            published := some (destQueue, forwardPublishing msg), err := none }
        else
          { acked := false, nacked := some true, published := none
            err := some ("failed to publish to '" ++ destQueue ++ "'") }

/-! ## GetOneMessage -/

/-- Outcomes of the broker operations performed by `GetOneMessage`. -/
structure GetEnv where
  /-- result of `r.conn.Channel()` -/
  chanOpen : Except String Unit
  /-- broker-side error of `ch.Get`, if any -/
  getErr : Option String

/-- Embedding of `GetOneMessage` (rabbitmq/rabbitmq.go, lines 343-364).
The queue is a list of pending deliveries; `ch.Get` with `autoAck=false`
takes the head and the subsequent `msg.Ack(false)` removes it, so the
function returns the triple `(body, ok, err)` together with the remaining
queue contents. -/
def getOneMessage (env : GetEnv) (queue : List Delivery) :
    (String × Bool × Option String) × List Delivery :=
  match env.chanOpen with
  | Except.error e => (("", false, some ("could not open channel: " ++ e)), queue)
  | Except.ok _ =>
    match env.getErr with
    | some e => (("", false, some ("failed to get message: " ++ e)), queue)
    | none =>
      match queue with
      | [] => (("", false, none), queue)
      | msg :: rest => ((msg.body, true, none), rest)

/-! ## Script host: Starlark engine value conversion -/

/-- Starlark runtime value as seen by `StarlarkRunner.Execute`. Dictionary
keys are arbitrary values, as in Starlark; the struct constructor mirrors
`starlarkstruct.Struct`. Floats do not occur in any verified claim and are
omitted from the embedding. -/
inductive SValue where
  | snone : SValue
  | sbool (b : Bool) : SValue
  | sint (n : Int) : SValue
  | sstr (s : String) : SValue
  | sdict (entries : List (SValue × SValue)) : SValue
  | slist (xs : List SValue) : SValue
  | stuple (xs : List SValue) : SValue
  | sstruct (fields : List (String × SValue)) : SValue

mutual

/-- Embedding of `fromStarlarkValue` (scripting starlark runner): converts a
Starlark value to a Go value, rejecting integers outside the signed 64-bit
range and unsupported shapes. Tuples convert to Go slices like lists. -/
def fromStarlarkValue : SValue → Except String GoValue
  | SValue.snone => Except.ok GoValue.vnull
  | SValue.sbool b => Except.ok (GoValue.vbool b)
  | SValue.sint n =>
      if -(2 ^ 63) ≤ n ∧ n < 2 ^ 63 then Except.ok (GoValue.vint n)
      else Except.error "starlark.Int too large for int64"
  | SValue.sstr s => Except.ok (GoValue.vstr s)
  | SValue.sdict entries =>
      (starlarkEntriesToMap entries).map GoValue.vmap
  | SValue.slist xs => (starlarkListToGo xs).map GoValue.vlist
  | SValue.stuple xs => (starlarkListToGo xs).map GoValue.vlist
  | SValue.sstruct fields => (starlarkFieldsToMap fields).map GoValue.vmap

/-- Conversion of `starlark.Dict` items: every key must be a string, and
every value converts via `fromStarlarkValue`. -/
def starlarkEntriesToMap : List (SValue × SValue) → Except String GoMap
  | [] => Except.ok []
  | (SValue.sstr k, v) :: rest => do
      let gv ← fromStarlarkValue v
      let m ← starlarkEntriesToMap rest
      Except.ok ((k, gv) :: m)
  | (_, _) :: _ => Except.error "starlark dict key must be string"

/-- Conversion of `starlarkstruct.Struct` fields. -/
def starlarkFieldsToMap : List (String × SValue) → Except String GoMap
  | [] => Except.ok []
  | (k, v) :: rest => do
      let gv ← fromStarlarkValue v
      let m ← starlarkFieldsToMap rest
      Except.ok ((k, gv) :: m)

/-- Elementwise conversion of Starlark lists and tuples. -/
def starlarkListToGo : List SValue → Except String (List GoValue)
  | [] => Except.ok []
  | x :: xs => do
      let gv ← fromStarlarkValue x
      let rest ← starlarkListToGo xs
      Except.ok (gv :: rest)

end

/-- Embedding of `convertStarlarkDictToMap`: accepts a Starlark dict or
struct and produces a Go map; every other shape is an error. -/
def convertStarlarkDictToMap : SValue → Except String GoMap
  | SValue.sdict entries => starlarkEntriesToMap entries
  | SValue.sstruct fields => starlarkFieldsToMap fields
  | _ => Except.error "cannot convert Starlark value to Go map"

/-! ## Script host: JavaScript (goja) engine value conversion -/

/-- JavaScript runtime value as seen by `GojaRunner.Execute`. Numeric values
are embedded as integers; floats do not occur in any verified claim. -/
inductive JsValue where
  | jundefined : JsValue
  | jnull : JsValue
  | jbool (b : Bool) : JsValue
  | jint (n : Int) : JsValue
  | jstr (s : String) : JsValue
  | jobj (entries : List (String × JsValue)) : JsValue
  | jarr (xs : List JsValue) : JsValue

mutual

/-- Export of a single goja value into a Go `interface{}` value. Undefined
exports as a nil interface value, as goja does. -/
def jsToGo : JsValue → GoValue
  | JsValue.jundefined => GoValue.vnull
  | JsValue.jnull => GoValue.vnull
  | JsValue.jbool b => GoValue.vbool b
  | JsValue.jint n => GoValue.vint n
  | JsValue.jstr s => GoValue.vstr s
  | JsValue.jobj entries => GoValue.vmap (jsEntriesToGo entries)
  | JsValue.jarr xs => GoValue.vlist (jsListToGo xs)

/-- Export of a JavaScript object body into Go map entries. -/
def jsEntriesToGo : List (String × JsValue) → GoMap
  | [] => []
  | (k, v) :: rest => (k, jsToGo v) :: jsEntriesToGo rest

/-- Export of a JavaScript array body into a Go slice. -/
def jsListToGo : List JsValue → List GoValue
  | [] => []
  | x :: xs => jsToGo x :: jsListToGo xs

end

/-- Embedding of `vm.ExportTo(result, &resultObj)` with a
`map[string]interface{}` target: succeeds exactly on objects. -/
def gojaExportToMap : JsValue → Except String GoMap
  | JsValue.jobj entries => Except.ok (jsEntriesToGo entries)
  | _ => Except.error "failed to export result"

/-! ## Script host: result handling of Execute -/

/-- Shared shape of `resultObj["body"].(map[string]interface{})` in both
runners: the `body` entry of the result map when it is itself a map. -/
def lookupBodyMap (m : GoMap) : Option GoMap :=
  match m.lookup "body" with
  | some (GoValue.vmap b) => some b
  | _ => none

/-- Embedding of the `transform`-result handling of `StarlarkRunner.Execute`
(lines 109-135): `None` filters the message; otherwise the result must
convert to a map; a missing or non-map `body` entry filters the message;
otherwise the body is returned with the source headers passed through. -/
def starlarkHandleTransform (result : SValue) (messageHeaders : GoMap) :
    Except String (Option TransformedMessage) :=
  match result with
  | SValue.snone => Except.ok none
  | r =>
    match convertStarlarkDictToMap r with
    | Except.error _ => Except.error "transform result must be a dict"
    | Except.ok resultMap =>
      match lookupBodyMap resultMap with
      | none => Except.ok none
      | some b => Except.ok (some { body := b, headers := messageHeaders })

/-- Embedding of the `collect`-result handling of `StarlarkRunner.Execute`
(lines 138-159): `None` yields no message; otherwise the result must convert
to a map; a non-empty map becomes the whole message body with fresh empty
headers, and an empty map yields no message. -/
def starlarkHandleCollect (result : SValue) :
    Except String (Option TransformedMessage) :=
  match result with
  | SValue.snone => Except.ok none
  | r =>
    match convertStarlarkDictToMap r with
    | Except.error _ => Except.error "collect result must be a dict"
    | Except.ok resultMap =>
      if resultMap.length > 0 then
        Except.ok (some { body := resultMap, headers := [] })
      else Except.ok none

/-- Embedding of the `transform`-result handling of `GojaRunner.Execute`
(lines 141-169): null and undefined filter the message; otherwise the result
is exported to a Go map; a missing or non-map `body` entry filters the
message; otherwise the body is returned with the source headers. -/
def gojaHandleTransform (result : JsValue) (messageHeaders : GoMap) :
    Except String (Option TransformedMessage) :=
  match result with
  | JsValue.jnull => Except.ok none
  | JsValue.jundefined => Except.ok none
  | r =>
    match gojaExportToMap r with
    | Except.error _ => Except.error "failed to export transform result"
    | Except.ok resultObj =>
      match lookupBodyMap resultObj with
      | none => Except.ok none
      | some b => Except.ok (some { body := b, headers := messageHeaders })

/-- Embedding of the `collect`-result handling of `GojaRunner.Execute`
(lines 172-195): null and undefined yield no message; otherwise the exported
object, when non-empty, becomes the whole message body with fresh empty
headers. -/
def gojaHandleCollect (result : JsValue) :
    Except String (Option TransformedMessage) :=
  match result with
  | JsValue.jnull => Except.ok none
  | JsValue.jundefined => Except.ok none
  | r =>
    match gojaExportToMap r with
    | Except.error _ => Except.error "failed to export collect result"
    | Except.ok resultObj =>
      if resultObj.length > 0 then
        Except.ok (some { body := resultObj, headers := [] })
      else Except.ok none

/-! ## Config store entities -/

/-- storage.Route (storage models): nullable columns are options. -/
structure Route where
  id : String
  name : String
  sourceChannelID : String
  destinationChannelID : Option String
  routeType : String
  transformationID : Option String
  integrationID : Option String
deriving DecidableEq

/-- storage.Channel (storage models). -/
structure Channel where
  id : String
  applicationID : String
  name : String
  direction : String
  destination : String
  fanoutMode : Bool
deriving DecidableEq

/-- storage.Transformation (storage models). -/
structure Transformation where
  id : String
  name : String
  engine : String
  script : String
deriving DecidableEq

/-! ## Route worker: per-delivery dispatch of routeMessageLoop -/

/-- Ack outcome recorded for the in-flight delivery. -/
inductive AckAction where
  | ack : AckAction
  | nackRequeue : AckAction
  | nackDrop : AckAction
deriving DecidableEq

/-- Broker-visible outcome of handling one delivery in `routeMessageLoop`:
the acknowledgement sent and the message published, if any, keyed by the
destination exchange. -/
structure DispatchResult where
  action : AckAction
  published : Option (String × Publishing)

/-- Oracle inputs for one iteration of `routeMessageLoop`: results of the
store lookups, JSON body parsing, script execution, and the publish. -/
structure DispatchEnv where
  /-- the three results of `r.dataStore.GetRouteByID(routeID)` in the retry loop -/
  routeAttempts : List (Except String (Option Route))
  /-- result of `r.dataStore.GetChannelByID` on the destination channel id -/
  getChannel : String → Except String (Option Channel)
  /-- result of `r.dataStore.GetTransformationByID` -/
  getTransformation : String → Except String (Option Transformation)
  /-- result of `json.Unmarshal(d.Body, &bodyMap)` -/
  unmarshalBody : Except String GoMap
  /-- result of `r.scriptingService.ExecuteScript(engine, script, body, headers)` -/
  execScript : String → String → GoMap → GoMap → Except String (Option TransformedMessage)
  /-- result of `json.Marshal(transformedMsg.Body)` -/
  marshalBody : GoMap → Except String String
  /-- whether `r.republishAsDurable` succeeds -/
  publishOk : Bool

/-- The retry loop of `routeMessageLoop` (router.go lines 177-183): up to
three `GetRouteByID` calls, stopping at the first that returns a route with
no error; the result of the last attempt is kept otherwise. -/
def fetchRouteWithRetry : List (Except String (Option Route)) → Except String (Option Route)
  | [] => Except.ok none
  | [a] => a
  | a :: rest =>
    match a with
    | Except.ok (some r) => Except.ok (some r)
    | _ => fetchRouteWithRetry rest

/-- The republish step at the end of `routeMessageLoop` (lines 256-268):
publish a copy of the delivery whose body was replaced by `finalBody`,
acking on success and nacking with requeue on failure. -/
def publishStep (d : Delivery) (finalBody : String) (exchange : String)
    (publishOk : Bool) : DispatchResult :=
  if publishOk then
    { action := AckAction.ack
      published := some (exchange, republishAsDurable { d with body := finalBody }) }
  else { action := AckAction.nackRequeue, published := none }

/-- Embedding of the per-delivery body of `routeMessageLoop` (router.go
lines 174-268): route re-fetch with retry, destination checks, optional
transformation via the script host, and the final republish. -/
def dispatchDelivery (env : DispatchEnv) (d : Delivery) : DispatchResult :=
  match fetchRouteWithRetry env.routeAttempts with
  | Except.ok (some route) =>
    match route.destinationChannelID with
    | none => { action := AckAction.nackDrop, published := none }
    | some destID =>
      if destID = "" then { action := AckAction.nackDrop, published := none }
      else
        match env.getChannel destID with
        | Except.ok (some destChannel) =>
          let finalDestExchange := "durable_exchange_for_" ++ destChannel.destination
          if route.routeType = "transform" then
            match route.transformationID with
            | none => { action := AckAction.nackDrop, published := none }
            | some tid =>
              if tid = "" then { action := AckAction.nackDrop, published := none }
              else
                match env.getTransformation tid with
                | Except.ok (some transform) =>
                  match env.unmarshalBody with
                  | Except.error _ => { action := AckAction.nackDrop, published := none }
                  | Except.ok bodyMap =>
                    match env.execScript transform.engine transform.script bodyMap d.headers with
                    | Except.error _ => { action := AckAction.nackDrop, published := none }
                    | Except.ok none => { action := AckAction.ack, published := none }
                    | Except.ok (some transformedMsg) =>
                      match env.marshalBody transformedMsg.body with
                      | Except.error _ => { action := AckAction.nackDrop, published := none }
                      | Except.ok newBodyBytes =>
                        publishStep d newBodyBytes finalDestExchange env.publishOk
                | _ => { action := AckAction.nackDrop, published := none }
          else publishStep d d.body finalDestExchange env.publishOk
        | _ => { action := AckAction.nackRequeue, published := none }
  | _ => { action := AckAction.nackRequeue, published := none }

/-- Embedding of the per-delivery body of `collectMessages` (outbound
collector, rabbitmq.go lines 211-222): republish as durable, ack on
success, nack with requeue on failure. -/
def collectOneDelivery (d : Delivery) (destExchange : String)
    (publishOk : Bool) : DispatchResult :=
  if publishOk then
    { action := AckAction.ack
      published := some (destExchange, republishAsDurable d) }
  else { action := AckAction.nackRequeue, published := none }

/-! ## Worker supervisor: StartRouter -/

/-- Supervisor registries of the RabbitMQ wrapper: the `workers` presence
set and the `stoppers` cancellation map (keys only; the cancellation
functions themselves carry no verifiable data). -/
structure Supervisor where
  workers : List String
  stoppers : List String
deriving DecidableEq

/-- Oracle inputs for the setup phase of `StartRouter`: the source channel
lookup and the success of `setupFanoutSubscription`. -/
structure StartEnv where
  getChannel : Except String (Option Channel)
  fanoutSetupOk : Bool

/-- Embedding of `strings.HasPrefix`, phrased over the character sequences
of the two strings so that it evaluates by kernel reduction. -/
def goStartsWith (s pre : String) : Bool :=
  pre.data.isPrefixOf s.data

/-- The source-queue setup phase of `StartRouter` (router.go lines 23-59):
determines the source queue for the worker, or fails (returning `none`)
when the source channel cannot be resolved or the fanout subscription
cannot be set up. -/
def routerSetup (routeID routeName sourceID : String)
    (env : StartEnv) : Option String :=
  if goStartsWith sourceID "collector-output:" then
    if env.fanoutSetupOk then
      some ("route_fanout_queue_for_" ++ routeName ++ "_" ++ routeID)
    else none
  else
    match env.getChannel with
    | Except.ok (some sourceChannel) =>
        if sourceChannel.fanoutMode then
          if env.fanoutSetupOk then
            some ("route_fanout_queue_for_" ++ routeName ++ "_" ++ routeID)
          else none
        else some ("durable_queue_for_" ++ sourceChannel.destination)
    | _ => none

/-- Embedding of `StartRouter` (router.go lines 16-97): returns the updated
registries together with `some sourceQueue` when a worker goroutine was
launched on that queue. A second call with the same route id observes
`workers["router-<id>"]` and returns at once; setup failures also return
without registering. -/
def startRouter (s : Supervisor) (routeID routeName sourceID : String)
    (env : StartEnv) : Supervisor × Option String :=
  let workerKey := "router-" ++ routeID
  if workerKey ∈ s.workers then (s, none)
  else
    match routerSetup routeID routeName sourceID env with
    | some sourceQueue =>
        ({ workers := workerKey :: s.workers, stoppers := workerKey :: s.stoppers },
         some sourceQueue)
    | none => (s, none)

/-! ## Config store schema migration -/

/-- Abstract database schema acted on by the startup migration: the set of
existing tables, and the column lists of the three tables whose columns the
migration evolves. -/
structure Schema where
  tableNames : List String
  channelsCols : List String
  routesCols : List String
  collectorsCols : List String
deriving DecidableEq

/-- The tables the migration creates if absent. -/
def migrationTables : List String :=
  ["applications", "channels", "routes", "transformations",
   "collectors", "integrations", "settings"]

/-- Columns of a freshly created channels table. -/
def channelsBaseCols : List String :=
  ["id", "application_id", "name", "direction", "destination",
   "fanout_mode", "created_at"]

/-- Columns of a freshly created routes table. -/
def routesBaseCols : List String :=
  ["id", "name", "source_channel_id", "destination_channel_id",
   "route_type", "transformation_id", "integration_id", "created_at"]

/-- Columns of a freshly created collectors table (the obsolete
`destination_channel_id` is not part of the current definition). -/
def collectorsBaseCols : List String :=
  ["id", "name", "schedule", "engine", "script", "integration_id",
   "created_at", "updated_at"]

/-- The route columns added by idempotent ALTERs when missing. -/
def routesEvolvedCols : List String :=
  ["name", "source_channel_id", "destination_channel_id", "route_type",
   "transformation_id", "integration_id", "created_at"]

/-- One idempotent `ALTER TABLE ... ADD COLUMN` guarded by a column check. -/
def addColumnIfMissing (cols : List String) (c : String) : List String :=
  if c ∈ cols then cols else cols ++ [c]

/-- The collectors table rebuild: copy the table without the obsolete
column when that column is present. -/
def dropColumnIfPresent (cols : List String) (c : String) : List String :=
  if c ∈ cols then cols.filter (fun x => x ≠ c) else cols

/-- One `CREATE TABLE IF NOT EXISTS` for a table whose columns the
migration never evolves. -/
def ensureTable (s : Schema) (nm : String) : Schema :=
  if nm ∈ s.tableNames then s else { s with tableNames := nm :: s.tableNames }

/-- `CREATE TABLE IF NOT EXISTS channels (...)` with the current columns. -/
def ensureChannelsTable (s : Schema) : Schema :=
  if "channels" ∈ s.tableNames then s
  else { s with tableNames := "channels" :: s.tableNames
                channelsCols := channelsBaseCols }

/-- `CREATE TABLE IF NOT EXISTS routes (...)` with the current columns. -/
def ensureRoutesTable (s : Schema) : Schema :=
  if "routes" ∈ s.tableNames then s
  else { s with tableNames := "routes" :: s.tableNames
                routesCols := routesBaseCols }

/-- `CREATE TABLE IF NOT EXISTS collectors (...)` with the current columns. -/
def ensureCollectorsTable (s : Schema) : Schema :=
  if "collectors" ∈ s.tableNames then s
  else { s with tableNames := "collectors" :: s.tableNames
                collectorsCols := collectorsBaseCols }

/-- The guarded `ALTER TABLE channels ADD COLUMN fanout_mode`. -/
def addFanoutModeColumn (s : Schema) : Schema :=
  { s with channelsCols := addColumnIfMissing s.channelsCols "fanout_mode" }

/-- The guarded `ALTER TABLE routes ADD COLUMN` steps for every evolved
route column. -/
def addRoutesEvolvedColumns (s : Schema) : Schema :=
  { s with routesCols := routesEvolvedCols.foldl addColumnIfMissing s.routesCols }

/-- The collectors table rebuild dropping the obsolete column. -/
def dropCollectorsObsoleteColumn (s : Schema) : Schema :=
  { s with collectorsCols := dropColumnIfPresent s.collectorsCols "destination_channel_id" }

/-- Modelled from the spec: the schema-migration step run when the store is
opened. The current `migrate` function of the storage package is not part
of the provided sources (only an earlier three-table revision is), so this
definition follows spec sections 4.1 and 9: create every table if absent,
add `fanout_mode` to channels if missing, add the evolved route columns if
missing, and drop the obsolete `destination_channel_id` column from
collectors via table rebuild if present. -/
def migrate (s : Schema) : Schema :=
  let s := ensureTable s "applications"
  let s := ensureChannelsTable s
  let s := ensureRoutesTable s
  let s := ensureTable s "transformations"
  let s := ensureCollectorsTable s
  let s := ensureTable s "integrations"
  let s := ensureTable s "settings"
  let s := addFanoutModeColumn s
  let s := addRoutesEvolvedColumns s
  let s := dropCollectorsObsoleteColumn s
  s

/-! ## Script capabilities: HTTP client and injected names -/

/-- Field names of the `http` module injected into Starlark scripts by
`StarlarkRunner.Execute` (the `starlarkstruct.FromStringDict` call). -/
def starlarkHttpFields : List String := ["get"]

/-- Field names of the `log` module injected into Starlark scripts. -/
def starlarkLogFields : List String := ["info", "warn", "error"]

/-- Callable method names of the value bound to `http` in JavaScript
scripts by `vm.Set("http", r.httpClient)`: the exported Go methods of
`scripting.HTTPClient`, under goja's default (unmapped) member naming. -/
def gojaHttpMethodNames : List String := ["Get", "Post"]

/-- The default timeout, in seconds, of the `http.Client` built by
`NewHTTPClient`. -/
def newHTTPClientTimeoutSeconds : Nat := 10

/-- The `{status_code, body, headers, error}` record returned to scripts
(`scripting.HTTPResponse`). -/
structure HTTPResponse where
  statusCode : Nat
  body : String
  headers : List (String × String)
  error : String
deriving DecidableEq

/-- Oracle inputs for one HTTP request issued by the script capability:
request construction, the round trip, and the body read. -/
structure HttpNet where
  /-- error of `http.NewRequest`, if any -/
  newRequestErr : Option String
  /-- result of `c.Client.Do(req)`: network error, or status with headers -/
  doResult : Except String (Nat × List (String × String))
  /-- result of `io.ReadAll(resp.Body)`: error or the body text -/
  readBody : Except String String

/-- Embedding of `HTTPClient.Get` (scripting http client): every failure is
returned inside the response record rather than raised; a transport error
yields a response whose `error` field carries the message. -/
def httpClientGet (net : HttpNet) : HTTPResponse :=
  match net.newRequestErr with
  | some e => { statusCode := 0, body := "", headers := [], error := e }
  | none =>
    match net.doResult with
    | Except.error e => { statusCode := 0, body := "", headers := [], error := e }
    | Except.ok (status, respHeaders) =>
      match net.readBody with
      | Except.error e =>
          { statusCode := status, body := "", headers := [], error := e }
      | Except.ok bodyText =>
          { statusCode := status, body := bodyText, headers := respHeaders, error := "" }

/-- Embedding of `HTTPClient.Post`: identical failure handling to `Get`
(the request body and default content type only affect the outgoing
request, which the oracle summarises). -/
def httpClientPost (net : HttpNet) : HTTPResponse :=
  match net.newRequestErr with
  | some e => { statusCode := 0, body := "", headers := [], error := e }
  | none =>
    match net.doResult with
    | Except.error e => { statusCode := 0, body := "", headers := [], error := e }
    | Except.ok (status, respHeaders) =>
      match net.readBody with
      | Except.error e =>
          { statusCode := status, body := "", headers := [], error := e }
      | Except.ok bodyText =>
          { statusCode := status, body := bodyText, headers := respHeaders, error := "" }

/-! ## Concrete sample inputs used by witness theorems -/

/-- A sample delivery used in witness instantiations. -/
def sampleDelivery : Delivery :=
  { headers := [("k", GoValue.vstr "v")], contentType := "application/json"
    contentEncoding := "", deliveryMode := amqpPersistent, priority := 0
    correlationId := "cid", replyTo := "", expiration := "", messageId := "m1"
    timestamp := 7, msgType := "", userId := "", appId := "app1"
    body := "\x7b\"total\":5\x7d" }

/-- A sample dispatch environment for a transform route whose script
execution filters the message. -/
def sampleTransformEnv : DispatchEnv :=
  { routeAttempts := [Except.ok (some
      { id := "r2", name := "R2", sourceChannelID := "c1"
        destinationChannelID := some "c2", routeType := "transform"
        transformationID := some "t1", integrationID := none })]
    getChannel := fun _ => Except.ok (some
      { id := "c2", applicationID := "a1", name := "dst"
        direction := "inbound", destination := "dst", fanoutMode := false })
    getTransformation := fun _ => Except.ok (some
      { id := "t1", name := "T", engine := "starlark", script := "s" })
    unmarshalBody := Except.ok [("total", GoValue.vint 5)]
    execScript := fun _ _ _ _ => Except.ok none
    marshalBody := fun _ => Except.ok ""
    publishOk := true }

/-- A sample start environment for a collector-fed route. -/
def sampleStartEnv : StartEnv :=
  { getChannel := Except.ok none, fanoutSetupOk := true }

/-! ## Helper lemmas -/

/-- Any message published by the route worker dispatch is the durable
republish of the source delivery with some replacement body. -/
theorem dispatch_published_shape (env : DispatchEnv) (d : Delivery)
    (ex : String) (pub : Publishing)
    (h : (dispatchDelivery env d).published = some (ex, pub)) :
    ∃ fb, pub = republishAsDurable { d with body := fb } := by
  unfold dispatchDelivery publishStep at h
  repeat' split at h
  all_goals simp_all
  all_goals exact ⟨_, h.2.symm⟩

/-! ## Claim theorems -/

/-- C2: every republish performed by the engine (outbound collector and
route worker) preserves headers, content type, content encoding,
correlation id, reply-to, expiration, message id, timestamp, type, user id,
app id and priority of the source delivery and forces persistent delivery
mode; only the body may differ. -/
theorem republish_preserves_properties :
    (∀ msg : Delivery,
      (republishAsDurable msg).headers = msg.headers ∧
      (republishAsDurable msg).contentType = msg.contentType ∧
      (republishAsDurable msg).contentEncoding = msg.contentEncoding ∧
      (republishAsDurable msg).correlationId = msg.correlationId ∧
      (republishAsDurable msg).replyTo = msg.replyTo ∧
      (republishAsDurable msg).expiration = msg.expiration ∧
      (republishAsDurable msg).messageId = msg.messageId ∧
      (republishAsDurable msg).timestamp = msg.timestamp ∧
      (republishAsDurable msg).msgType = msg.msgType ∧
      (republishAsDurable msg).userId = msg.userId ∧
      (republishAsDurable msg).appId = msg.appId ∧
      (republishAsDurable msg).priority = msg.priority ∧
      (republishAsDurable msg).deliveryMode = amqpPersistent) ∧
    (∀ (env : DispatchEnv) (d : Delivery) (ex : String) (pub : Publishing),
      (dispatchDelivery env d).published = some (ex, pub) →
      pub.headers = d.headers ∧
      pub.contentType = d.contentType ∧
      pub.contentEncoding = d.contentEncoding ∧
      pub.correlationId = d.correlationId ∧
      pub.replyTo = d.replyTo ∧
      pub.expiration = d.expiration ∧
      pub.messageId = d.messageId ∧
      pub.timestamp = d.timestamp ∧
      pub.msgType = d.msgType ∧
      pub.userId = d.userId ∧
      pub.appId = d.appId ∧
      pub.priority = d.priority ∧
      pub.deliveryMode = amqpPersistent) ∧
    (∀ (d : Delivery) (destEx : String) (ok : Bool) (ex : String) (pub : Publishing),
      (collectOneDelivery d destEx ok).published = some (ex, pub) →
      pub = republishAsDurable d) := by
  refine ⟨fun msg => ?_, fun env d ex pub h => ?_, fun d destEx ok ex pub h => ?_⟩
  · simp [republishAsDurable]
  · obtain ⟨fb, rfl⟩ := dispatch_published_shape env d ex pub h
    simp [republishAsDurable]
  · unfold collectOneDelivery at h
    split at h <;> simp_all

/-- C2 witness: concrete evaluation of the hypotheses of the republish
preservation theorem on a direct route dispatch. -/
theorem republish_preserves_properties_witness :
    ∃ pub : Publishing,
      (dispatchDelivery
        { routeAttempts := [Except.ok (some
            { id := "r1", name := "R1", sourceChannelID := "c1"
              destinationChannelID := some "c2", routeType := "direct"
              transformationID := none, integrationID := none })]
          getChannel := fun _ => Except.ok (some
            { id := "c2", applicationID := "a1", name := "dst"
              direction := "inbound", destination := "dst", fanoutMode := false })
          getTransformation := fun _ => Except.ok none
          unmarshalBody := Except.ok []
          execScript := fun _ _ _ _ => Except.ok none
          marshalBody := fun _ => Except.ok ""
          publishOk := true }
        { headers := [("k", GoValue.vstr "v")], contentType := "application/json"
          contentEncoding := "", deliveryMode := amqpPersistent, priority := 0
          correlationId := "cid", replyTo := "", expiration := "", messageId := "m1"
          timestamp := 7, msgType := "", userId := "", appId := "app1"
          body := "{}" }).published = some ("durable_exchange_for_dst", pub) ∧
      pub.headers = [("k", GoValue.vstr "v")] ∧
      pub.messageId = "m1" ∧
      pub.deliveryMode = amqpPersistent := by
  refine ⟨_, rfl, ?_⟩
  have h := republish_preserves_properties.2.1
    { routeAttempts := [Except.ok (some
        { id := "r1", name := "R1", sourceChannelID := "c1"
          destinationChannelID := some "c2", routeType := "direct"
          transformationID := none, integrationID := none })]
      getChannel := fun _ => Except.ok (some
        { id := "c2", applicationID := "a1", name := "dst"
          direction := "inbound", destination := "dst", fanoutMode := false })
      getTransformation := fun _ => Except.ok none
      unmarshalBody := Except.ok []
      execScript := fun _ _ _ _ => Except.ok none
      marshalBody := fun _ => Except.ok ""
      publishOk := true }
    { headers := [("k", GoValue.vstr "v")], contentType := "application/json"
      contentEncoding := "", deliveryMode := amqpPersistent, priority := 0
      correlationId := "cid", replyTo := "", expiration := "", messageId := "m1"
      timestamp := 7, msgType := "", userId := "", appId := "app1"
      body := "{}" }
    "durable_exchange_for_dst" _ rfl
  exact ⟨h.1, h.2.2.2.2.2.2.1, h.2.2.2.2.2.2.2.2.2.2.2.2⟩

/-- C3: the inbound forwarder never acks a delivery fetched from the
durable queue unless its publish to the transient destination queue
succeeded, and on publish failure it nacks the delivery with requeue. -/
theorem forwarder_ack_only_after_publish (env : ForwardEnv) (dq : String) :
    ((forwardOneMessage env dq).acked = true →
      env.publishOk = true ∧
      ∃ msg, env.getMsg = Except.ok (some msg) ∧
        (forwardOneMessage env dq).published = some (dq, forwardPublishing msg)) ∧
    (∀ msg, env.chanOpen = Except.ok () → env.destQueueDeclare = Except.ok () →
      env.getMsg = Except.ok (some msg) → env.publishOk = false →
      (forwardOneMessage env dq).nacked = some true ∧
      (forwardOneMessage env dq).acked = false ∧
      (forwardOneMessage env dq).published = none) := by
  constructor
  · intro hack
    unfold forwardOneMessage at *
    repeat' split at hack
    all_goals simp_all
  · intro msg hch hdecl hget hpub
    unfold forwardOneMessage
    simp [hch, hdecl, hget, hpub]

/-- C3 witness: on a concrete environment whose publish fails, the fetched
message is nacked with requeue and not acked. -/
theorem forwarder_ack_only_after_publish_witness :
    (forwardOneMessage
      { chanOpen := Except.ok (), destQueueDeclare := Except.ok ()
        getMsg := Except.ok (some
          { headers := [], contentType := "application/json", contentEncoding := ""
            deliveryMode := amqpPersistent, priority := 0, correlationId := ""
            replyTo := "", expiration := "", messageId := "m7", timestamp := 3
            msgType := "", userId := "", appId := "", body := "\x7b\x7d" })
        publishOk := false } "q1").nacked = some true ∧
    (forwardOneMessage
      { chanOpen := Except.ok (), destQueueDeclare := Except.ok ()
        getMsg := Except.ok (some
          { headers := [], contentType := "application/json", contentEncoding := ""
            deliveryMode := amqpPersistent, priority := 0, correlationId := ""
            replyTo := "", expiration := "", messageId := "m7", timestamp := 3
            msgType := "", userId := "", appId := "", body := "\x7b\x7d" })
        publishOk := false } "q1").acked = false := by
  have h := (forwarder_ack_only_after_publish
    { chanOpen := Except.ok (), destQueueDeclare := Except.ok ()
      getMsg := Except.ok (some
        { headers := [], contentType := "application/json", contentEncoding := ""
          deliveryMode := amqpPersistent, priority := 0, correlationId := ""
          replyTo := "", expiration := "", messageId := "m7", timestamp := 3
          msgType := "", userId := "", appId := "", body := "\x7b\x7d" })
      publishOk := false } "q1").2 _ rfl rfl rfl rfl
  exact ⟨h.1, h.2.1⟩

/-- C4: a delivery whose re-fetched route has a null or empty destination
channel is nacked without requeue and nothing is published for it. -/
theorem null_destination_dead_letters (env : DispatchEnv) (d : Delivery)
    (route : Route)
    (hfetch : fetchRouteWithRetry env.routeAttempts = Except.ok (some route))
    (hdest : route.destinationChannelID = none ∨
             route.destinationChannelID = some "") :
    dispatchDelivery env d =
      { action := AckAction.nackDrop, published := none } := by
  unfold dispatchDelivery
  rw [hfetch]
  rcases hdest with h | h <;> simp [h]

/-- C4 witness: concrete dispatch of a route with an empty destination. -/
theorem null_destination_dead_letters_witness :
    dispatchDelivery
      { routeAttempts := [Except.ok (some
          { id := "r9", name := "R9", sourceChannelID := "c1"
            destinationChannelID := some "", routeType := "direct"
            transformationID := none, integrationID := none })]
        getChannel := fun _ => Except.ok none
        getTransformation := fun _ => Except.ok none
        unmarshalBody := Except.ok []
        execScript := fun _ _ _ _ => Except.ok none
        marshalBody := fun _ => Except.ok ""
        publishOk := true }
      { headers := [], contentType := "", contentEncoding := ""
        deliveryMode := amqpPersistent, priority := 0, correlationId := ""
        replyTo := "", expiration := "", messageId := "", timestamp := 0
        msgType := "", userId := "", appId := "", body := "\x7b\x7d" } =
      { action := AckAction.nackDrop, published := none } := by
  exact null_destination_dead_letters _ _ _ rfl (Or.inr rfl)

/-- C10: GetOneMessage on an empty queue reports no message and no error;
on a non-empty queue it returns the head body with ok=true and acks it so
that it is removed from the queue. -/
theorem get_one_message_semantics (env : GetEnv) (q : List Delivery)
    (hch : env.chanOpen = Except.ok ()) (hget : env.getErr = none) :
    (q = [] → getOneMessage env q = (("", false, none), [])) ∧
    (∀ m rest, q = m :: rest →
      getOneMessage env q = ((m.body, true, none), rest)) := by
  constructor
  · intro hq
    subst hq
    unfold getOneMessage
    simp [hch, hget]
  · intro m rest hq
    subst hq
    unfold getOneMessage
    simp [hch, hget]

/-- C10 witness: concrete evaluation on an empty and a one-element queue. -/
theorem get_one_message_semantics_witness :
    getOneMessage { chanOpen := Except.ok (), getErr := none } [] =
      (("", false, none), []) ∧
    getOneMessage { chanOpen := Except.ok (), getErr := none }
      [{ headers := [], contentType := "", contentEncoding := ""
         deliveryMode := amqpPersistent, priority := 0, correlationId := ""
         replyTo := "", expiration := "", messageId := "", timestamp := 0
         msgType := "", userId := "", appId := "", body := "hello" }] =
      (("hello", true, none), []) := by
  constructor
  · exact (get_one_message_semantics
      { chanOpen := Except.ok (), getErr := none } [] rfl rfl).1 rfl
  · exact (get_one_message_semantics
      { chanOpen := Except.ok (), getErr := none } _ rfl rfl).2 _ [] rfl

/-- C1: on a transform route, when the transformation script returns
null/None the script host reports no message (ok with none), the route
worker acks the source delivery, and nothing is published. -/
theorem transform_nil_filters (env : DispatchEnv) (d : Delivery)
    (route : Route) (destID tid : String) (ch : Channel)
    (transform : Transformation) (bodyMap : GoMap)
    (h1 : fetchRouteWithRetry env.routeAttempts = Except.ok (some route))
    (h2 : route.destinationChannelID = some destID) (h2e : destID ≠ "")
    (h3 : env.getChannel destID = Except.ok (some ch))
    (h4 : route.routeType = "transform")
    (h5 : route.transformationID = some tid) (h5e : tid ≠ "")
    (h6 : env.getTransformation tid = Except.ok (some transform))
    (h7 : env.unmarshalBody = Except.ok bodyMap)
    (h8 : env.execScript transform.engine transform.script bodyMap d.headers =
          Except.ok none) :
    dispatchDelivery env d = { action := AckAction.ack, published := none } ∧
    (∀ hs, starlarkHandleTransform SValue.snone hs = Except.ok none) ∧
    (∀ hs, gojaHandleTransform JsValue.jnull hs = Except.ok none) ∧
    (∀ hs, gojaHandleTransform JsValue.jundefined hs = Except.ok none) := by
  refine ⟨?_, fun hs => rfl, fun hs => rfl, fun hs => rfl⟩
  unfold dispatchDelivery
  simp only [h1, h2, h3, h4, h5, h6, h7, h8, if_neg h2e, if_neg h5e, if_true]

/-- C1 witness: a concrete transform dispatch whose script execution
returns no message is acked with nothing published. -/
theorem transform_nil_filters_witness :
    dispatchDelivery sampleTransformEnv sampleDelivery =
      { action := AckAction.ack, published := none } := by
  exact (transform_nil_filters sampleTransformEnv sampleDelivery
    { id := "r2", name := "R2", sourceChannelID := "c1"
      destinationChannelID := some "c2", routeType := "transform"
      transformationID := some "t1", integrationID := none }
    "c2" "t1"
    { id := "c2", applicationID := "a1", name := "dst"
      direction := "inbound", destination := "dst", fanoutMode := false }
    { id := "t1", name := "T", engine := "starlark", script := "s" }
    [("total", GoValue.vint 5)]
    rfl rfl (by decide) rfl rfl rfl (by decide) rfl rfl rfl).1

/-- C8: a second `StartRouter` call for the same route id, made after a
first call that launched a worker, observes the registered worker key, is a
no-op, and leaves the workers set and stoppers map unchanged, so exactly
one worker is launched across the two calls. -/
theorem start_router_idempotent (s : Supervisor)
    (rid nm sid : String) (env env2 : StartEnv) (q : String)
    (hfirst : (startRouter s rid nm sid env).2 = some q) :
    ("router-" ++ rid) ∈ (startRouter s rid nm sid env).1.workers ∧
    startRouter (startRouter s rid nm sid env).1 rid nm sid env2 =
      ((startRouter s rid nm sid env).1, none) := by
  have hmem : ("router-" ++ rid) ∉ s.workers := by
    intro hm
    unfold startRouter at hfirst
    rw [if_pos hm] at hfirst
    exact Option.noConfusion hfirst
  cases hs : routerSetup rid nm sid env with
  | none =>
      unfold startRouter at hfirst
      rw [if_neg hmem, hs] at hfirst
      exact absurd hfirst Option.noConfusion
  | some sq =>
      have hres : startRouter s rid nm sid env =
          ({ workers := ("router-" ++ rid) :: s.workers
             stoppers := ("router-" ++ rid) :: s.stoppers }, some sq) := by
        unfold startRouter
        rw [if_neg hmem, hs]
      rw [hres]
      refine ⟨List.mem_cons_self _ _, ?_⟩
      unfold startRouter
      rw [if_pos (List.mem_cons_self _ _)]

/-- C8 witness: two concrete consecutive StartRouter calls on an empty
supervisor register the key once and the second call is a no-op. -/
theorem start_router_idempotent_witness :
    ("router-" ++ "r1") ∈
      (startRouter { workers := [], stoppers := [] } "r1" "R1"
        "collector-output:k1" sampleStartEnv).1.workers ∧
    startRouter
      (startRouter { workers := [], stoppers := [] } "r1" "R1"
        "collector-output:k1" sampleStartEnv).1
      "r1" "R1" "collector-output:k1" sampleStartEnv =
      ((startRouter { workers := [], stoppers := [] } "r1" "R1"
        "collector-output:k1" sampleStartEnv).1, none) := by
  exact start_router_idempotent { workers := [], stoppers := [] }
    "r1" "R1" "collector-output:k1" sampleStartEnv sampleStartEnv
    "route_fanout_queue_for_R1_r1" (by decide)

/-- C9: in both engines, a non-null transform result whose `body` entry is
absent or not a mapping makes Execute report no message (filtered) rather
than an error. -/
theorem missing_body_filters :
    (∀ (r : SValue) (hs m : GoMap),
      convertStarlarkDictToMap r = Except.ok m →
      lookupBodyMap m = none →
      starlarkHandleTransform r hs = Except.ok none) ∧
    (∀ (r : JsValue) (hs m : GoMap),
      gojaExportToMap r = Except.ok m →
      lookupBodyMap m = none →
      gojaHandleTransform r hs = Except.ok none) := by
  constructor
  · intro r hs m hconv hbody
    cases r <;> simp_all [starlarkHandleTransform, convertStarlarkDictToMap]
  · intro r hs m hconv hbody
    cases r <;> simp_all [gojaHandleTransform, gojaExportToMap]

/-- C9 witness: concrete non-null results without a mapping `body` are
filtered by both engines. -/
theorem missing_body_filters_witness :
    starlarkHandleTransform
      (SValue.sdict [(SValue.sstr "other", SValue.sint 1)]) [] =
      Except.ok none ∧
    gojaHandleTransform
      (JsValue.jobj [("body", JsValue.jstr "text")]) [] =
      Except.ok none := by
  constructor
  · exact missing_body_filters.1
      (SValue.sdict [(SValue.sstr "other", SValue.sint 1)]) []
      [("other", GoValue.vint 1)] rfl rfl
  · exact missing_body_filters.2
      (JsValue.jobj [("body", JsValue.jstr "text")]) []
      [("body", GoValue.vstr "text")] rfl rfl

/-- C5 counterexample: for a `collect` result, Execute does not return the
`body` field of the returned mapping; it returns the whole mapping. On the
concrete Starlark collect result `{"body": {"x": 1}}` the code yields the
outer mapping as the message body, not the inner `{"x": 1}` that the claim
predicts. -/
theorem collect_body_field_counterexample :
    starlarkHandleCollect
      (SValue.sdict [(SValue.sstr "body",
        SValue.sdict [(SValue.sstr "x", SValue.sint 1)])]) =
      Except.ok (some
        { body := [("body", GoValue.vmap [("x", GoValue.vint 1)])]
          headers := [] }) ∧
    starlarkHandleCollect
      (SValue.sdict [(SValue.sstr "body",
        SValue.sdict [(SValue.sstr "x", SValue.sint 1)])]) ≠
      Except.ok (some { body := [("x", GoValue.vint 1)], headers := [] }) := by
  constructor
  · rfl
  · intro h
    rw [show starlarkHandleCollect
      (SValue.sdict [(SValue.sstr "body",
        SValue.sdict [(SValue.sstr "x", SValue.sint 1)])]) =
      Except.ok (some
        { body := [("body", GoValue.vmap [("x", GoValue.vint 1)])]
          headers := [] }) from rfl] at h
    simp [TransformedMessage.mk.injEq] at h

/-- C5 (amended): when the entry function returns a non-null value, for
`transform` Execute returns the value's `body` field as the message body
with the source headers passed through unchanged, while for `collect`
Execute returns the entire returned mapping as the message body (or no
message when that mapping is empty) with an empty header map, in both
engines. -/
theorem execute_result_semantics :
    (∀ (r : SValue) (hs m b : GoMap),
      convertStarlarkDictToMap r = Except.ok m →
      lookupBodyMap m = some b →
      starlarkHandleTransform r hs = Except.ok (some { body := b, headers := hs })) ∧
    (∀ (r : SValue) (m : GoMap),
      convertStarlarkDictToMap r = Except.ok m →
      m.length > 0 →
      starlarkHandleCollect r = Except.ok (some { body := m, headers := [] })) ∧
    (∀ (r : SValue),
      convertStarlarkDictToMap r = Except.ok [] →
      starlarkHandleCollect r = Except.ok none) ∧
    (∀ (r : JsValue) (hs m b : GoMap),
      gojaExportToMap r = Except.ok m →
      lookupBodyMap m = some b →
      gojaHandleTransform r hs = Except.ok (some { body := b, headers := hs })) ∧
    (∀ (r : JsValue) (m : GoMap),
      gojaExportToMap r = Except.ok m →
      m.length > 0 →
      gojaHandleCollect r = Except.ok (some { body := m, headers := [] })) ∧
    (∀ (r : JsValue),
      gojaExportToMap r = Except.ok [] →
      gojaHandleCollect r = Except.ok none) := by
  refine ⟨?_, ?_, ?_, ?_, ?_, ?_⟩
  · intro r hs m b hconv hbody
    cases r <;> simp_all [starlarkHandleTransform, convertStarlarkDictToMap]
  · intro r m hconv hlen
    cases r <;> simp_all [starlarkHandleCollect, convertStarlarkDictToMap]
  · intro r hconv
    cases r <;> simp_all [starlarkHandleCollect, convertStarlarkDictToMap]
  · intro r hs m b hconv hbody
    cases r <;> simp_all [gojaHandleTransform, gojaExportToMap]
  · intro r m hconv hlen
    cases r <;> simp_all [gojaHandleCollect, gojaExportToMap]
  · intro r hconv
    cases r <;> simp_all [gojaHandleCollect, gojaExportToMap]

/-- C5 (amended) witness: concrete transform and collect results in both
engines evaluate as the amended claim states. -/
theorem execute_result_semantics_witness :
    starlarkHandleTransform
      (SValue.sdict [(SValue.sstr "body",
        SValue.sdict [(SValue.sstr "x", SValue.sint 1)])])
      [("h", GoValue.vstr "v")] =
      Except.ok (some { body := [("x", GoValue.vint 1)]
                        headers := [("h", GoValue.vstr "v")] }) ∧
    starlarkHandleCollect (SValue.sdict [(SValue.sstr "ts", SValue.sint 1)]) =
      Except.ok (some { body := [("ts", GoValue.vint 1)], headers := [] }) ∧
    gojaHandleCollect (JsValue.jobj []) = Except.ok none := by
  refine ⟨?_, ?_, ?_⟩
  · exact execute_result_semantics.1
      (SValue.sdict [(SValue.sstr "body",
        SValue.sdict [(SValue.sstr "x", SValue.sint 1)])])
      [("h", GoValue.vstr "v")]
      [("body", GoValue.vmap [("x", GoValue.vint 1)])]
      [("x", GoValue.vint 1)] rfl rfl
  · exact execute_result_semantics.2.1
      (SValue.sdict [(SValue.sstr "ts", SValue.sint 1)])
      [("ts", GoValue.vint 1)] rfl (by decide)
  · exact execute_result_semantics.2.2.2.2.2 (JsValue.jobj []) rfl

/-- C6 counterexample: the Starlark engine does not inject `http.post`;
its injected `http` module carries only the `get` builtin, so the claim
that both `http.get` and `http.post` are injected for every engine fails
for the Starlark engine. -/
theorem starlark_http_post_missing :
    "get" ∈ starlarkHttpFields ∧ "post" ∉ starlarkHttpFields := by
  decide

/-- C6 (amended): both engines are backed by the shared HTTP client whose
default timeout is 10 seconds and whose network errors populate the
response's `error` field instead of throwing; the JavaScript engine
exposes the client's `Get` and `Post` methods, while the Starlark engine
injects only `http.get`. -/
theorem http_capability_semantics :
    "get" ∈ starlarkHttpFields ∧ "post" ∉ starlarkHttpFields ∧
    "Get" ∈ gojaHttpMethodNames ∧ "Post" ∈ gojaHttpMethodNames ∧
    newHTTPClientTimeoutSeconds = 10 ∧
    (∀ (net : HttpNet) (e : String),
      net.newRequestErr = none →
      net.doResult = Except.error e →
      httpClientGet net =
        { statusCode := 0, body := "", headers := [], error := e } ∧
      httpClientPost net =
        { statusCode := 0, body := "", headers := [], error := e }) := by
  refine ⟨by decide, by decide, by decide, by decide, rfl, ?_⟩
  intro net e hreq hdo
  unfold httpClientGet httpClientPost
  rw [hreq, hdo]
  exact ⟨rfl, rfl⟩

/-- C6 (amended) witness: a concrete failing round trip populates the
error field of the response in both Get and Post. -/
theorem http_capability_semantics_witness :
    httpClientGet
      { newRequestErr := none
        doResult := Except.error "connection refused"
        readBody := Except.ok "" } =
      { statusCode := 0, body := "", headers := [], error := "connection refused" } ∧
    httpClientPost
      { newRequestErr := none
        doResult := Except.error "connection refused"
        readBody := Except.ok "" } =
      { statusCode := 0, body := "", headers := [], error := "connection refused" } := by
  exact http_capability_semantics.2.2.2.2.2
    { newRequestErr := none
      doResult := Except.error "connection refused"
      readBody := Except.ok "" }
    "connection refused" rfl rfl

/-! ## Migration helper lemmas -/

theorem mem_addColumnIfMissing (cols : List String) (c : String) :
    c ∈ addColumnIfMissing cols c := by
  unfold addColumnIfMissing
  split
  · assumption
  · simp

theorem mem_addColumnIfMissing_of_mem {a : String} (cols : List String)
    (c : String) (h : a ∈ cols) : a ∈ addColumnIfMissing cols c := by
  unfold addColumnIfMissing
  split
  · exact h
  · exact List.mem_append_left _ h

theorem addColumnIfMissing_eq {cols : List String} {c : String}
    (h : c ∈ cols) : addColumnIfMissing cols c = cols := by
  unfold addColumnIfMissing
  exact if_pos h

theorem mem_foldl_addColumn_of_mem {a : String} (cs : List String)
    (cols : List String) (h : a ∈ cols) :
    a ∈ cs.foldl addColumnIfMissing cols := by
  induction cs generalizing cols with
  | nil => exact h
  | cons hd tl ih =>
      exact ih (addColumnIfMissing cols hd) (mem_addColumnIfMissing_of_mem cols hd h)

theorem mem_foldl_addColumn {c : String} (cols : List String)
    {cs : List String} (h : c ∈ cs) :
    c ∈ cs.foldl addColumnIfMissing cols := by
  induction cs generalizing cols with
  | nil => exact absurd h (List.not_mem_nil c)
  | cons hd tl ih =>
      rcases List.mem_cons.mp h with rfl | hmem
      · exact mem_foldl_addColumn_of_mem tl _ (mem_addColumnIfMissing cols c)
      · exact ih _ hmem

theorem foldl_addColumn_eq {cols cs : List String}
    (h : ∀ c ∈ cs, c ∈ cols) : cs.foldl addColumnIfMissing cols = cols := by
  induction cs with
  | nil => rfl
  | cons hd tl ih =>
      rw [List.foldl_cons, addColumnIfMissing_eq (h hd (List.mem_cons_self hd tl))]
      exact ih fun c hc => h c (List.mem_cons_of_mem hd hc)

theorem not_mem_dropColumnIfPresent (cols : List String) (c : String) :
    c ∉ dropColumnIfPresent cols c := by
  unfold dropColumnIfPresent
  split
  · intro hmem
    have := List.of_mem_filter hmem
    simp at this
  · assumption

theorem dropColumnIfPresent_eq {cols : List String} {c : String}
    (h : c ∉ cols) : dropColumnIfPresent cols c = cols := by
  unfold dropColumnIfPresent
  exact if_neg h

theorem mem_ensureTable_self (s : Schema) (nm : String) :
    nm ∈ (ensureTable s nm).tableNames := by
  unfold ensureTable
  split
  · assumption
  · exact List.mem_cons_self _ _

theorem mem_ensureTable_of_mem {a : String} (s : Schema) (nm : String)
    (h : a ∈ s.tableNames) : a ∈ (ensureTable s nm).tableNames := by
  unfold ensureTable
  split
  · exact h
  · exact List.mem_cons_of_mem _ h

theorem mem_ensureChannelsTable_self (s : Schema) :
    "channels" ∈ (ensureChannelsTable s).tableNames := by
  unfold ensureChannelsTable
  split
  · assumption
  · exact List.mem_cons_self _ _

theorem mem_ensureChannelsTable_of_mem {a : String} (s : Schema)
    (h : a ∈ s.tableNames) : a ∈ (ensureChannelsTable s).tableNames := by
  unfold ensureChannelsTable
  split
  · exact h
  · exact List.mem_cons_of_mem _ h

theorem mem_ensureRoutesTable_self (s : Schema) :
    "routes" ∈ (ensureRoutesTable s).tableNames := by
  unfold ensureRoutesTable
  split
  · assumption
  · exact List.mem_cons_self _ _

theorem mem_ensureRoutesTable_of_mem {a : String} (s : Schema)
    (h : a ∈ s.tableNames) : a ∈ (ensureRoutesTable s).tableNames := by
  unfold ensureRoutesTable
  split
  · exact h
  · exact List.mem_cons_of_mem _ h

theorem mem_ensureCollectorsTable_self (s : Schema) :
    "collectors" ∈ (ensureCollectorsTable s).tableNames := by
  unfold ensureCollectorsTable
  split
  · assumption
  · exact List.mem_cons_self _ _

theorem mem_ensureCollectorsTable_of_mem {a : String} (s : Schema)
    (h : a ∈ s.tableNames) : a ∈ (ensureCollectorsTable s).tableNames := by
  unfold ensureCollectorsTable
  split
  · exact h
  · exact List.mem_cons_of_mem _ h

theorem ensureTable_eq {s : Schema} {nm : String}
    (h : nm ∈ s.tableNames) : ensureTable s nm = s := by
  unfold ensureTable
  exact if_pos h

theorem ensureChannelsTable_eq {s : Schema}
    (h : "channels" ∈ s.tableNames) : ensureChannelsTable s = s := by
  unfold ensureChannelsTable
  exact if_pos h

theorem ensureRoutesTable_eq {s : Schema}
    (h : "routes" ∈ s.tableNames) : ensureRoutesTable s = s := by
  unfold ensureRoutesTable
  exact if_pos h

theorem ensureCollectorsTable_eq {s : Schema}
    (h : "collectors" ∈ s.tableNames) : ensureCollectorsTable s = s := by
  unfold ensureCollectorsTable
  exact if_pos h

theorem addFanoutModeColumn_eq {s : Schema}
    (h : "fanout_mode" ∈ s.channelsCols) : addFanoutModeColumn s = s := by
  unfold addFanoutModeColumn
  rw [addColumnIfMissing_eq h]

theorem addRoutesEvolvedColumns_eq {s : Schema}
    (h : ∀ c ∈ routesEvolvedCols, c ∈ s.routesCols) :
    addRoutesEvolvedColumns s = s := by
  unfold addRoutesEvolvedColumns
  rw [foldl_addColumn_eq h]

theorem dropCollectorsObsoleteColumn_eq {s : Schema}
    (h : "destination_channel_id" ∉ s.collectorsCols) :
    dropCollectorsObsoleteColumn s = s := by
  unfold dropCollectorsObsoleteColumn
  rw [dropColumnIfPresent_eq h]

theorem dropCollectorsObsoleteColumn_tableNames (s : Schema) :
    (dropCollectorsObsoleteColumn s).tableNames = s.tableNames := rfl

theorem addRoutesEvolvedColumns_tableNames (s : Schema) :
    (addRoutesEvolvedColumns s).tableNames = s.tableNames := rfl

theorem addFanoutModeColumn_tableNames (s : Schema) :
    (addFanoutModeColumn s).tableNames = s.tableNames := rfl

theorem dropCollectorsObsoleteColumn_channelsCols (s : Schema) :
    (dropCollectorsObsoleteColumn s).channelsCols = s.channelsCols := rfl

theorem addRoutesEvolvedColumns_channelsCols (s : Schema) :
    (addRoutesEvolvedColumns s).channelsCols = s.channelsCols := rfl

theorem addFanoutModeColumn_channelsCols (s : Schema) :
    (addFanoutModeColumn s).channelsCols =
      addColumnIfMissing s.channelsCols "fanout_mode" := rfl

theorem dropCollectorsObsoleteColumn_routesCols (s : Schema) :
    (dropCollectorsObsoleteColumn s).routesCols = s.routesCols := rfl

theorem addRoutesEvolvedColumns_routesCols (s : Schema) :
    (addRoutesEvolvedColumns s).routesCols =
      routesEvolvedCols.foldl addColumnIfMissing s.routesCols := by
  unfold addRoutesEvolvedColumns
  rfl

theorem dropCollectorsObsoleteColumn_collectorsCols (s : Schema) :
    (dropCollectorsObsoleteColumn s).collectorsCols =
      dropColumnIfPresent s.collectorsCols "destination_channel_id" := rfl

theorem migrate_mem_tables (s : Schema) :
    ∀ nm ∈ migrationTables, nm ∈ (migrate s).tableNames := by
  intro nm hm
  simp only [migrationTables, List.mem_cons, List.not_mem_nil, or_false] at hm
  simp only [migrate]
  rw [dropCollectorsObsoleteColumn_tableNames, addRoutesEvolvedColumns_tableNames,
    addFanoutModeColumn_tableNames]
  rcases hm with rfl | rfl | rfl | rfl | rfl | rfl | rfl
  · exact mem_ensureTable_of_mem _ _ (mem_ensureTable_of_mem _ _
      (mem_ensureCollectorsTable_of_mem _ (mem_ensureTable_of_mem _ _
      (mem_ensureRoutesTable_of_mem _ (mem_ensureChannelsTable_of_mem _
      (mem_ensureTable_self s "applications"))))))
  · exact mem_ensureTable_of_mem _ _ (mem_ensureTable_of_mem _ _
      (mem_ensureCollectorsTable_of_mem _ (mem_ensureTable_of_mem _ _
      (mem_ensureRoutesTable_of_mem _
      (mem_ensureChannelsTable_self _)))))
  · exact mem_ensureTable_of_mem _ _ (mem_ensureTable_of_mem _ _
      (mem_ensureCollectorsTable_of_mem _ (mem_ensureTable_of_mem _ _
      (mem_ensureRoutesTable_self _))))
  · exact mem_ensureTable_of_mem _ _ (mem_ensureTable_of_mem _ _
      (mem_ensureCollectorsTable_of_mem _
      (mem_ensureTable_self _ "transformations")))
  · exact mem_ensureTable_of_mem _ _ (mem_ensureTable_of_mem _ _
      (mem_ensureCollectorsTable_self _))
  · exact mem_ensureTable_of_mem _ _ (mem_ensureTable_self _ "integrations")
  · exact mem_ensureTable_self _ "settings"

theorem migrate_fanout_mem (s : Schema) :
    "fanout_mode" ∈ (migrate s).channelsCols := by
  simp only [migrate]
  rw [dropCollectorsObsoleteColumn_channelsCols, addRoutesEvolvedColumns_channelsCols,
    addFanoutModeColumn_channelsCols]
  exact mem_addColumnIfMissing _ _

theorem migrate_routes_mem (s : Schema) :
    ∀ c ∈ routesEvolvedCols, c ∈ (migrate s).routesCols := by
  intro c hc
  simp only [migrate]
  rw [dropCollectorsObsoleteColumn_routesCols, addRoutesEvolvedColumns_routesCols]
  exact mem_foldl_addColumn _ hc

theorem migrate_collectors_not_mem (s : Schema) :
    "destination_channel_id" ∉ (migrate s).collectorsCols := by
  simp only [migrate]
  rw [dropCollectorsObsoleteColumn_collectorsCols]
  exact not_mem_dropColumnIfPresent _ _

theorem migrate_eq_of_migrated (s : Schema)
    (happ : "applications" ∈ s.tableNames)
    (hch : "channels" ∈ s.tableNames)
    (hro : "routes" ∈ s.tableNames)
    (htr : "transformations" ∈ s.tableNames)
    (hco : "collectors" ∈ s.tableNames)
    (hin : "integrations" ∈ s.tableNames)
    (hse : "settings" ∈ s.tableNames)
    (hfan : "fanout_mode" ∈ s.channelsCols)
    (hrc : ∀ c ∈ routesEvolvedCols, c ∈ s.routesCols)
    (hcc : "destination_channel_id" ∉ s.collectorsCols) :
    migrate s = s := by
  simp only [migrate]
  rw [ensureTable_eq happ, ensureChannelsTable_eq hch, ensureRoutesTable_eq hro,
    ensureTable_eq htr, ensureCollectorsTable_eq hco, ensureTable_eq hin,
    ensureTable_eq hse, addFanoutModeColumn_eq hfan,
    addRoutesEvolvedColumns_eq hrc, dropCollectorsObsoleteColumn_eq hcc]

/-- C7: the startup migration creates every table if absent, ensures
`fanout_mode` on channels, ensures the evolved route columns, removes the
obsolete `destination_channel_id` column from collectors, and re-running
the migration leaves the schema unchanged. -/
theorem migration_idempotent (s : Schema) :
    (∀ nm ∈ migrationTables, nm ∈ (migrate s).tableNames) ∧
    "fanout_mode" ∈ (migrate s).channelsCols ∧
    (∀ c ∈ routesEvolvedCols, c ∈ (migrate s).routesCols) ∧
    "destination_channel_id" ∉ (migrate s).collectorsCols ∧
    migrate (migrate s) = migrate s := by
  refine ⟨migrate_mem_tables s, migrate_fanout_mem s,
    migrate_routes_mem s, migrate_collectors_not_mem s, ?_⟩
  exact migrate_eq_of_migrated (migrate s)
    (migrate_mem_tables s "applications" (by decide))
    (migrate_mem_tables s "channels" (by decide))
    (migrate_mem_tables s "routes" (by decide))
    (migrate_mem_tables s "transformations" (by decide))
    (migrate_mem_tables s "collectors" (by decide))
    (migrate_mem_tables s "integrations" (by decide))
    (migrate_mem_tables s "settings" (by decide))
    (migrate_fanout_mem s)
    (migrate_routes_mem s)
    (migrate_collectors_not_mem s)

/-- C7 witness: migrating the empty schema creates the tables and a second
run leaves the result unchanged. -/
theorem migration_idempotent_witness :
    "channels" ∈ (migrate ⟨[], [], [], []⟩).tableNames ∧
    migrate (migrate ⟨[], [], [], []⟩) = migrate ⟨[], [], [], []⟩ := by
  exact ⟨(migration_idempotent ⟨[], [], [], []⟩).1 "channels" (by decide),
    (migration_idempotent ⟨[], [], [], []⟩).2.2.2.2⟩

end EsbApp
